import Mathlib

/-!
# Verification of the reputation-and-ranking subsystem of the P2P academic library

Shallow embedding of the Go sources: the pure score engine and classifier
(`services/reputation_service.go`, `models/types.go`), the user-record mutations
(`services/user_service.go`, `models/user.go`), the resource rating logic
(`models/resource.go`), the aggregator (`RecalculateAll`, `GetNetworkStats`) and
the search/filter/sort/paginate pipeline (`services/search_service.go`).

Modelling conventions:
* Go `int` is modelled as `ℤ`; Go `float64` is modelled as `ℚ` (every numeric
  literal appearing in the code and the tests is exactly representable, and all
  arithmetic performed on these values here is exact in `float64` as well for
  the inputs considered);
* Go `int(x)` conversion of a `float64` truncates toward zero, modelled by
  `goIntOfFloat`;
* Go strings are Lean `String`s; `strings.ToLower` / `strings.TrimSpace` /
  `strings.Contains` are modelled character-wise (ASCII lowering; the data in
  scope is ASCII);
* the in-memory map store hands collections to the services as lists; the
  enumeration order of a Go map is unspecified (and deliberately randomized),
  so service functions are parametrised by the enumeration list, and facts that
  must hold for every enumeration are quantified over permutations of it.
-/

namespace P2PLib

/-! ## models/types.go — constants and classification -/

-- Reputation thresholds and calculations (models/types.go const block)
def ContributorThreshold : ℤ := 50
def NeutralThreshold : ℤ := 0
def LowReputation : ℤ := -100
def UploadWeight : ℤ := 2
def DownloadWeight : ℤ := 1
def RatingWeight : ℤ := 10

-- Rating bounds (models/types.go const block); Go floats modelled as ℚ
def MaxRating : ℚ := 5
def MinRating : ℚ := 1

-- UserClassification is a string type in Go; the three constants:
def ClassContributor : String := "Contributor"
def ClassNeutral : String := "Neutral"
def ClassLeecher : String := "Leecher"

/-- Go conversion `int(x)` from `float64`: truncation toward zero. -/
def goIntOfFloat (q : ℚ) : ℤ :=
  if 0 ≤ q then ⌊q⌋ else -⌊-q⌋

/-- `models.IsValidRating`: `r >= MinRating && r <= MaxRating`. -/
def IsValidRating (r : ℚ) : Bool :=
  MinRating ≤ r && r ≤ MaxRating

/-- `models.GetClassification` (models/types.go): expression-less switch on the
score against the thresholds, first match wins. -/
def GetClassification (score : ℤ) : String :=
  if score > ContributorThreshold then ClassContributor
  else if score ≥ NeutralThreshold then ClassNeutral
  else ClassLeecher

/-! ## services/reputation_service.go — pure functions -/

/-- `services.CalculateReputation`: uploads×2 − downloads×1 + int(avgRating×10),
clamped below at `LowReputation`. -/
def CalculateReputation (uploads downloads : ℤ) (avgRating : ℚ) : ℤ :=
  let uploadScore := uploads * UploadWeight
  let downloadPenalty := downloads * DownloadWeight
  let ratingBonus := goIntOfFloat (avgRating * (RatingWeight : ℚ))
  let score := uploadScore - downloadPenalty + ratingBonus
  if score < LowReputation then LowReputation else score

/-- `services.GetClassificationForScore`: same expression-less switch as
`models.GetClassification`. -/
def GetClassificationForScore (score : ℤ) : String :=
  if score > ContributorThreshold then ClassContributor
  else if score ≥ NeutralThreshold then ClassNeutral
  else ClassLeecher

theorem getClassificationForScore_eq_getClassification (s : ℤ) :
    GetClassificationForScore s = GetClassification s := rfl

/-! ## models/user.go — the User record

Fields of `models.User` read or written by the reputation subsystem (the
networking fields Password/PeerID/Status/IPAddress are never touched by the
code under verification and are omitted). Timestamps are abstract `ℤ` ticks. -/

structure User where
  ID : String
  Username : String
  Email : String
  Reputation : ℤ
  Classification : String
  TotalUploads : ℤ
  TotalDownloads : ℤ
  AverageRating : ℚ
  CreatedAt : ℤ
  LastActiveAt : ℤ
deriving DecidableEq, Repr

/-- `models.NewUser`: all counters zero, tier Neutral; `now` stands for the
`TimeNow()` call. -/
def NewUser (id username email : String) (now : ℤ) : User :=
  { ID := id
    Username := username
    Email := email
    Reputation := 0
    Classification := ClassNeutral
    TotalUploads := 0
    TotalDownloads := 0
    AverageRating := 0
    CreatedAt := now
    LastActiveAt := now }

/-- `services.UpdateReputationByPointer` (also the body of
`UpdateReputationByValue`): adds the delta to the reputation and recomputes the
classification from the new score; modelled as the record transformation the Go
function performs through the pointer. -/
def UpdateReputationByPointer (u : User) (delta : ℤ) : User :=
  { u with Reputation := u.Reputation + delta
           Classification := GetClassification (u.Reputation + delta) }

/-- `services.UserService.RecordUpload`: the transformation applied to the
stored user record (TotalUploads++ then reputation delta `UploadWeight`). -/
def recordUploadUser (u : User) : User :=
  UpdateReputationByPointer { u with TotalUploads := u.TotalUploads + 1 }
    UploadWeight

/-- `services.UserService.RecordDownload`: TotalDownloads++ then reputation
delta `-DownloadWeight`. -/
def recordDownloadUser (u : User) : User :=
  UpdateReputationByPointer { u with TotalDownloads := u.TotalDownloads + 1 }
    (-DownloadWeight)

/-- `services.UserService.UpdateRatingReceived`: the transformation applied to
the stored user record (running-average update, then reputation delta
`int(rating*RatingWeight/5.0)`). -/
def updateRatingReceivedUser (u : User) (rating : ℚ) : User :=
  let totalRatings : ℚ :=
    if (u.TotalUploads : ℚ) = 0 then 1 else (u.TotalUploads : ℚ)
  let currentSum := u.AverageRating * totalRatings
  let newSum := currentSum + rating
  let u1 := { u with AverageRating := newSum / (totalRatings + 1) }
  let delta := goIntOfFloat (rating * (RatingWeight : ℚ) / 5)
  UpdateReputationByPointer u1 delta

/-- Body of the loop of `services.ReputationService.RecalculateAll`: recompute
score from the counters and the tier from the new score. -/
def recalcUser (u : User) : User :=
  let score := CalculateReputation u.TotalUploads u.TotalDownloads u.AverageRating
  { u with Reputation := score
           Classification := GetClassificationForScore score }

/-- The user-record states reachable through the service layer: a fresh
`NewUser`, then any sequence of upload / download / rating-received / bulk
recalculation mutations. -/
inductive ReachableUser : User → Prop
  | new (id username email : String) (now : ℤ) :
      ReachableUser (NewUser id username email now)
  | upload {u : User} : ReachableUser u → ReachableUser (recordUploadUser u)
  | download {u : User} : ReachableUser u → ReachableUser (recordDownloadUser u)
  | rated {u : User} (rating : ℚ) : ReachableUser u →
      ReachableUser (updateRatingReceivedUser u rating)
  | recalc {u : User} : ReachableUser u → ReachableUser (recalcUser u)

/-! ## services/reputation_service.go — GetNetworkStats -/

structure NetworkStats where
  TotalUsers : ℤ
  Contributors : ℤ
  Neutral : ℤ
  Leechers : ℤ
  AverageScore : ℚ
deriving DecidableEq, Repr

/-- One iteration of the `GetNetworkStats` loop: accumulator is
(contributors, neutral, leechers, totalScore). -/
def statsStep (a : ℤ × ℤ × ℤ × ℤ) (u : User) : ℤ × ℤ × ℤ × ℤ :=
  let a := (a.1, a.2.1, a.2.2.1, a.2.2.2 + u.Reputation)
  if u.Classification = ClassContributor then (a.1 + 1, a.2.1, a.2.2.1, a.2.2.2)
  else if u.Classification = ClassNeutral then (a.1, a.2.1 + 1, a.2.2.1, a.2.2.2)
  else if u.Classification = ClassLeecher then (a.1, a.2.1, a.2.2.1 + 1, a.2.2.2)
  else a

/-- `services.ReputationService.GetNetworkStats`: single accumulating pass over
the users handed back by the store, average guarded against an empty
population. -/
def GetNetworkStats (users : List User) : NetworkStats :=
  let acc := users.foldl statsStep (0, 0, 0, 0)
  { TotalUsers := users.length
    Contributors := acc.1
    Neutral := acc.2.1
    Leechers := acc.2.2.1
    AverageScore :=
      if 0 < users.length then (acc.2.2.2 : ℚ) / (users.length : ℚ) else 0 }

/-! ## services/reputation_service.go — RecalculateAll over the collaborator -/

/-- The slice of the storage collaborator `RecalculateAll` uses: enumeration of
all users and per-user persistence, either of which may fail (`MemoryStore` is
one instance; the spec keeps the collaborator abstract). -/
structure StoreOps (σ : Type) (E : Type) where
  GetAllUsers : σ → Except E (List User)
  UpdateUser : User → σ → Except E σ

/-- `services.ReputationService.RecalculateAll`: abort only if enumeration
fails; otherwise recompute score and tier of every user in order and persist,
skipping (keeping the previous state, continuing with the rest) any user whose
update fails, and report success. -/
def RecalculateAll {σ E : Type} (ops : StoreOps σ E) (st : σ) : Except E σ :=
  match ops.GetAllUsers st with
  | .error e => .error e
  | .ok users =>
      .ok (users.foldl (fun s u =>
        match ops.UpdateUser (recalcUser u) s with
        | .error _ => s
        | .ok s1 => s1) st)

end P2PLib

open P2PLib

/-- C1: for uploads ≥ 0, downloads ≥ 0, averageRating ∈ [0,5], the score equals
max(−100, uploads·2 − downloads·1 + trunc(averageRating·10)), the rating term
truncating toward zero (19.9 ↦ 19, not 20); score(50,30,4.5)=115,
score(5,50,2.0)=−20, score(0,0,0)=0, and the result is never clamped on the
upper side (whenever the raw sum is ≥ −100 it is returned unchanged). -/
theorem C1_calculateReputation_formula :
    (∀ (u d : ℤ) (r : ℚ), 0 ≤ u → 0 ≤ d → 0 ≤ r → r ≤ 5 →
      CalculateReputation u d r = max (-100) (u * 2 - d * 1 + goIntOfFloat (r * 10))) ∧
    CalculateReputation 50 30 (9/2) = 115 ∧
    CalculateReputation 5 50 2 = -20 ∧
    CalculateReputation 0 0 0 = 0 ∧
    CalculateReputation 0 0 (199/100) = 19 ∧
    (∀ (u d : ℤ) (r : ℚ),
      -100 ≤ u * 2 - d * 1 + goIntOfFloat (r * 10) →
      CalculateReputation u d r = u * 2 - d * 1 + goIntOfFloat (r * 10)) := by
  refine ⟨?_, by norm_num [CalculateReputation, goIntOfFloat, UploadWeight,
      DownloadWeight, RatingWeight, LowReputation],
    by norm_num [CalculateReputation, goIntOfFloat, UploadWeight,
      DownloadWeight, RatingWeight, LowReputation],
    by norm_num [CalculateReputation, goIntOfFloat, UploadWeight,
      DownloadWeight, RatingWeight, LowReputation],
    by norm_num [CalculateReputation, goIntOfFloat, UploadWeight,
      DownloadWeight, RatingWeight, LowReputation],
    ?_⟩
  · intro u d r _ _ _ _
    simp only [CalculateReputation, UploadWeight, DownloadWeight, RatingWeight,
      LowReputation, Int.cast_ofNat]
    rcases lt_or_le (u * 2 - d * 1 + goIntOfFloat (r * 10)) (-100) with h | h
    · rw [if_pos h, max_eq_left h.le]
    · rw [if_neg (not_lt.mpr h), max_eq_right h]
  · intro u d r h
    simp only [CalculateReputation, UploadWeight, DownloadWeight, RatingWeight,
      LowReputation, Int.cast_ofNat]
    rw [if_neg (not_lt.mpr h)]

/-- Witness for C1 at concrete inputs discharging the hypotheses. -/
theorem C1_calculateReputation_formula_witness :
    CalculateReputation 50 30 (9/2) = max (-100) (50 * 2 - 30 * 1 + goIntOfFloat ((9/2) * 10)) ∧
    CalculateReputation 7 3 1 = 7 * 2 - 3 * 1 + goIntOfFloat ((1 : ℚ) * 10) :=
  ⟨C1_calculateReputation_formula.1 50 30 (9/2) (by norm_num) (by norm_num)
      (by norm_num) (by norm_num),
   C1_calculateReputation_formula.2.2.2.2.2 7 3 1
      (by norm_num [goIntOfFloat])⟩

/-- C2: the classifier returns Contributor for score > 50, else Neutral for
score ≥ 0, else Leecher, with the thresholds checked in that order; in
particular classify(51)=Contributor, classify(50)=Neutral, classify(0)=Neutral,
classify(−1)=Leecher. -/
theorem C2_classification_thresholds :
    (∀ s : ℤ, 50 < s → GetClassificationForScore s = ClassContributor) ∧
    (∀ s : ℤ, s ≤ 50 → 0 ≤ s → GetClassificationForScore s = ClassNeutral) ∧
    (∀ s : ℤ, s < 0 → GetClassificationForScore s = ClassLeecher) ∧
    GetClassificationForScore 51 = ClassContributor ∧
    GetClassificationForScore 50 = ClassNeutral ∧
    GetClassificationForScore 0 = ClassNeutral ∧
    GetClassificationForScore (-1) = ClassLeecher := by
  refine ⟨?_, ?_, ?_, by decide, by decide, by decide, by decide⟩
  · intro s hs
    simp [GetClassificationForScore, ContributorThreshold, hs]
  · intro s hs hs0
    simp [GetClassificationForScore, ContributorThreshold, NeutralThreshold,
      not_lt.mpr hs, hs0]
  · intro s hs
    simp [GetClassificationForScore, ContributorThreshold, NeutralThreshold,
      not_lt.mpr (by omega : s ≤ 50), not_le.mpr hs]

/-- Witness for C2 at concrete scores discharging the hypotheses. -/
theorem C2_classification_thresholds_witness :
    GetClassificationForScore 120 = ClassContributor ∧
    GetClassificationForScore 7 = ClassNeutral ∧
    GetClassificationForScore (-3) = ClassLeecher :=
  ⟨C2_classification_thresholds.1 120 (by norm_num),
   C2_classification_thresholds.2.1 7 (by norm_num) (by norm_num),
   C2_classification_thresholds.2.2.1 (-3) (by norm_num)⟩

namespace P2PLib

/-- Closed form of the `GetNetworkStats` accumulating pass, for any starting
accumulator. -/
theorem statsFold_spec (us : List User) (a : ℤ × ℤ × ℤ × ℤ) :
    us.foldl statsStep a =
      (a.1 + ((us.filter fun u => u.Classification = ClassContributor).length : ℤ),
       a.2.1 + ((us.filter fun u => u.Classification = ClassNeutral).length : ℤ),
       a.2.2.1 + ((us.filter fun u => u.Classification = ClassLeecher).length : ℤ),
       a.2.2.2 + (us.map User.Reputation).sum) := by
  induction us generalizing a with
  | nil => simp
  | cons u us ih =>
      rw [List.foldl_cons, ih]
      simp only [List.filter_cons, List.map_cons, List.sum_cons, statsStep]
      by_cases h1 : u.Classification = ClassContributor
      · simp only [h1, ClassContributor, ClassNeutral, ClassLeecher]
        simp
        omega
      · by_cases h2 : u.Classification = ClassNeutral
        · simp only [h2, ClassNeutral, ClassContributor, ClassLeecher] at h1 ⊢
          simp [h1]
          omega
        · by_cases h3 : u.Classification = ClassLeecher
          · simp only [h3, ClassLeecher, ClassContributor, ClassNeutral] at h1 h2 ⊢
            simp [h1, h2]
            omega
          · simp [h1, h2, h3]
            omega

end P2PLib

/-- C7: `GetNetworkStats` reports TotalUsers = number of accounts, per-tier
counts equal to the number of accounts stored with that tier, and the mean
score sum/count with the zero-account case explicitly guarded to 0. -/
theorem C7_networkStats_counts_and_mean (users : List User) :
    (GetNetworkStats users).TotalUsers = users.length ∧
    (GetNetworkStats users).Contributors =
      ((users.filter fun u => u.Classification = ClassContributor).length : ℤ) ∧
    (GetNetworkStats users).Neutral =
      ((users.filter fun u => u.Classification = ClassNeutral).length : ℤ) ∧
    (GetNetworkStats users).Leechers =
      ((users.filter fun u => u.Classification = ClassLeecher).length : ℤ) ∧
    (GetNetworkStats users).AverageScore =
      (if users.length = 0 then 0
       else ((((users.map User.Reputation).sum : ℤ)) : ℚ) / (users.length : ℚ)) := by
  have hfold := statsFold_spec users (0, 0, 0, 0)
  refine ⟨rfl, ?_, ?_, ?_, ?_⟩
  · simp only [GetNetworkStats]
    rw [hfold]
    simp
  · simp only [GetNetworkStats]
    rw [hfold]
    simp
  · simp only [GetNetworkStats]
    rw [hfold]
    simp
  · simp only [GetNetworkStats]
    rw [hfold]
    rcases users with _ | ⟨v, vs⟩
    · simp
    · simp

/-- C8: a freshly created account has score 0 and tier Neutral, and every
reachable account state (under upload recording, download recording,
rating-received updates and bulk recalculation) keeps tier equal to the
classification implied by its score. -/
theorem C8_tier_matches_score_invariant :
    (∀ id username email : String, ∀ now : ℤ,
      (NewUser id username email now).Reputation = 0 ∧
      (NewUser id username email now).Classification = ClassNeutral) ∧
    (∀ u : User, ReachableUser u →
      u.Classification = GetClassification u.Reputation) := by
  refine ⟨fun id username email now => ⟨rfl, rfl⟩, ?_⟩
  intro u h
  induction h with
  | new id username email now => rfl
  | upload _ _ => rfl
  | download _ _ => rfl
  | rated rating _ _ => rfl
  | recalc _ _ => rfl

/-- Witness for C8: the invariant holds at a concrete reachable state (a fresh
account after one upload and one bulk recalculation). -/
theorem C8_tier_matches_score_invariant_witness :
    (recalcUser (recordUploadUser (NewUser "u1" "alice" "alice@x" 0))).Classification =
      GetClassification
        (recalcUser (recordUploadUser (NewUser "u1" "alice" "alice@x" 0))).Reputation :=
  C8_tier_matches_score_invariant.2 _
    (ReachableUser.recalc (ReachableUser.upload
      (ReachableUser.new "u1" "alice" "alice@x" 0)))

namespace P2PLib

/-! Concrete collaborator instances used to exhibit the best-effort semantics
of `RecalculateAll`: the store state is the log of successfully persisted
users; persisting the account with ID "u2" fails. -/

def demoU1 : User := NewUser "u1" "a" "a@x" 0
def demoU2 : User := recordUploadUser (NewUser "u2" "b" "b@x" 0)
def demoU3 : User := recordDownloadUser (NewUser "u3" "c" "c@x" 0)

def demoOps : StoreOps (List User) Unit :=
  { GetAllUsers := fun _ => .ok [demoU1, demoU2, demoU3]
    UpdateUser := fun u s => if u.ID = "u2" then .error () else .ok (s ++ [u]) }

/-- A collaborator whose enumeration itself fails. -/
def demoFailOps : StoreOps (List User) ℕ :=
  { GetAllUsers := fun _ => .error 42
    UpdateUser := fun u s => .ok (s ++ [u]) }

end P2PLib

namespace P2PLib

/-! ## String helpers (Go standard library, ASCII fragment)

`strings.ToLower`, `strings.TrimSpace`, `strings.Contains` and
`strings.EqualFold` as used by the search service; the lowering/folding is
modelled on the ASCII case mapping (all data handled by the repository's code
and tests is ASCII). -/

def goToLower (s : String) : String := String.mk (s.toList.map Char.toLower)

/-- `strings.TrimSpace`: strip leading and trailing whitespace. -/
def goTrimSpace (s : String) : String :=
  String.mk
    (((s.toList.dropWhile Char.isWhitespace).reverse.dropWhile
        Char.isWhitespace).reverse)

/-- `strings.Contains s sub`: `sub` occurs as a contiguous substring of `s`. -/
def goContains (s sub : String) : Bool := decide (sub.toList <:+: s.toList)

def goEqualFold (a b : String) : Bool := goToLower a == goToLower b

/-! ## models/resource.go — the Resource record -/

/-- Fields of `models.Resource` read or written by the rating and search code
(the chunking fields are never touched by the code under verification and are
omitted; the Go field named `Type` is called `Rtype` because `Type` is reserved
in Lean). -/
structure Resource where
  ID : String
  Filename : String
  Title : String
  Description : String
  Subject : String
  Tags : List String
  Rtype : String
  UploadedBy : String
  AvailableOn : List String
  TotalRatings : ℤ
  AverageRating : ℚ
  RatingSum : ℚ
  DownloadCount : ℤ
  CreatedAt : ℤ
  UpdatedAt : ℤ
deriving DecidableEq, Repr

/-- `models.Resource.AddRating`: early return (silent no-op) on an invalid
rating, otherwise increment the count, add to the running sum, re-derive the
average and stamp `UpdatedAt` (`now` stands for the `TimeNow()` call). -/
def AddRating (r : Resource) (rating : ℚ) (now : ℤ) : Resource :=
  if !IsValidRating rating then r
  else
    { r with TotalRatings := r.TotalRatings + 1
             RatingSum := r.RatingSum + rating
             AverageRating := (r.RatingSum + rating) / ((r.TotalRatings : ℚ) + 1)
             UpdatedAt := now }

/-! ## services/search_service.go — search pipeline -/

structure SearchResult where
  Resource : Resource
  AvailablePeers : ℤ
  Relevance : ℚ
deriving DecidableEq, Repr

structure SearchResults where
  Query : String
  Results : List SearchResult
  TotalCount : ℤ
  Page : ℤ
  PageSize : ℤ
deriving DecidableEq, Repr

/-- `services.SearchFilters` (the `Tags` field exists in the Go struct but is
never read by `matchesFilters`; it is kept for fidelity). -/
structure SearchFilters where
  Subject : String
  Rtype : String
  MinRating : ℚ
  Tags : List String
  SortBy : String
  SortOrder : String
  Page : ℤ
  PageSize : ℤ
deriving DecidableEq, Repr

/-- `SearchService.calculateRelevance`: 1.0 on an empty query, otherwise the
additive accumulation of the weighted case-insensitive substring hits. -/
def calculateRelevance (r : Resource) (query : String) : ℚ :=
  if query = "" then 1
  else
    let rel : ℚ := 0
    let rel := if goContains (goToLower r.Title) query then rel + 3 else rel
    let rel := if goContains (goToLower r.Filename) query then rel + 2 else rel
    let rel := if goContains (goToLower r.Subject) query then rel + 3/2 else rel
    rel

/-- `SearchService.matchesFilters`: each supplied filter must pass (logical
AND); empty/zero filter values mean no filter. -/
def matchesFilters (r : Resource) (f : SearchFilters) : Bool :=
  if f.Subject != "" && !goEqualFold r.Subject f.Subject then false
  else if f.Rtype != "" && r.Rtype != f.Rtype then false
  else if decide (0 < f.MinRating) && decide (r.AverageRating < f.MinRating) then false
  else true

/-- The filtering loop of `SearchService.Search`: skip a resource when the
(processed) query is non-empty and its relevance is 0, then skip it when a
structured filter rejects it, otherwise wrap it as a `SearchResult`. -/
def searchMatchList (query : String) (f : SearchFilters) (all : List Resource) :
    List SearchResult :=
  all.filterMap fun r =>
    let relevance := calculateRelevance r query
    if query ≠ "" ∧ relevance = 0 then none
    else if ¬ (matchesFilters r f = true) then none
    else some ⟨r, (r.AvailableOn.length : ℤ), relevance⟩

/-- The comparison closure passed to the sort by `SearchService.sortResults`:
keyed by average rating, download count or (default) relevance, inverted when
the order is `desc`. -/
def lessFn (sortBy order : String) (a b : SearchResult) : Bool :=
  let less :=
    if sortBy = "rating" then
      decide (a.Resource.AverageRating < b.Resource.AverageRating)
    else if sortBy = "downloads" then
      decide (a.Resource.DownloadCount < b.Resource.DownloadCount)
    else decide (a.Relevance < b.Relevance)
  if order = "desc" then !less else less

/-- Insert `x` into an already-sorted list: `x` ends up after every element it
is not strictly below. This is the position Go's `sort.Slice` insertion pass
gives the element on the short slices arising in this development (Go's
`sort.Slice` runs a plain insertion sort below its pdqsort partition
threshold), and on longer slices it agrees with `sort.Slice` up to the order of
elements whose keys tie. -/
def sortInsert (less : SearchResult → SearchResult → Bool) (x : SearchResult) :
    List SearchResult → List SearchResult
  | [] => [x]
  | y :: l => if less x y then x :: y :: l else y :: sortInsert less x l

/-- `SearchService.sortResults`: comparison sort of the match list under
`lessFn` (modelled as the left-to-right insertion sort described at
`sortInsert`). -/
def sortResults (results : List SearchResult) (sortBy order : String) :
    List SearchResult :=
  results.foldl (fun acc x => sortInsert (lessFn sortBy order) x acc) []

/-- `SearchService.paginate`: page below 1 becomes 1, size below 1 becomes the
default 10, then the slice `[offset, min(offset+size, len))`, empty when the
offset is past the end. -/
def paginate (results : List SearchResult) (page size : ℤ) : List SearchResult :=
  let page := if page < 1 then 1 else page
  let size := if size < 1 then 10 else size
  let offset := (page - 1) * size
  if (results.length : ℤ) ≤ offset then []
  else (results.drop offset.toNat).take size.toNat

/-- The filtered and sorted match list of a search, before pagination. -/
def searchSorted (query : String) (f : SearchFilters) (all : List Resource) :
    List SearchResult :=
  sortResults (searchMatchList query f all) f.SortBy f.SortOrder

/-- `SearchService.Search`: trim and lower the query, filter, sort, count,
paginate. `all` is the list the store's `GetAll` hands back (one enumeration of
the backing map). -/
def Search (query : String) (filters : SearchFilters) (all : List Resource) :
    SearchResults :=
  let q := goToLower (goTrimSpace query)
  let sorted := searchSorted q filters all
  let totalCount := (sorted.length : ℤ)
  let paged := paginate sorted filters.Page filters.PageSize
  { Query := q
    Results := paged
    TotalCount := totalCount
    Page := filters.Page
    PageSize := filters.PageSize }

end P2PLib

/-- C6: `RecalculateAll` propagates an enumeration failure unchanged, returns
success whenever enumeration succeeds regardless of per-account update
failures, and on a concrete three-account store where persisting the middle
account fails it still recalculates and persists the other two. -/
theorem C6_recalculateAll_best_effort :
    (∀ (σ E : Type) (ops : StoreOps σ E) (st : σ) (e : E),
        ops.GetAllUsers st = .error e → RecalculateAll ops st = .error e) ∧
    (∀ (σ E : Type) (ops : StoreOps σ E) (st : σ) (users : List User),
        ops.GetAllUsers st = .ok users →
        ∃ st1 : σ, RecalculateAll ops st = .ok st1) ∧
    RecalculateAll demoOps [] = .ok [recalcUser demoU1, recalcUser demoU3] := by
  refine ⟨?_, ?_, ?_⟩
  · intro σ E ops st e h
    simp [RecalculateAll, h]
  · intro σ E ops st users h
    refine ⟨users.foldl (fun s u =>
      match ops.UpdateUser (recalcUser u) s with
      | .error _ => s
      | .ok s1 => s1) st, ?_⟩
    simp [RecalculateAll, h]
  · rfl

/-- Witness for C6 discharging both hypotheses at concrete collaborators. -/
theorem C6_recalculateAll_best_effort_witness :
    RecalculateAll demoFailOps [] = .error 42 ∧
    ∃ st1 : List User, RecalculateAll demoOps [] = .ok st1 :=
  ⟨C6_recalculateAll_best_effort.1 _ _ demoFailOps [] 42 rfl,
   C6_recalculateAll_best_effort.2.1 _ _ demoOps [] [demoU1, demoU2, demoU3] rfl⟩

namespace P2PLib

/-- Inserting one element with `sortInsert` permutes consing it. -/
theorem sortInsert_perm (le : SearchResult → SearchResult → Bool)
    (y : SearchResult) (l : List SearchResult) :
    (sortInsert le y l).Perm (y :: l) := by
  induction l with
  | nil => simp [sortInsert]
  | cons z l ih =>
      by_cases h : le y z = true
      · simp [sortInsert, h]
      · simp only [sortInsert, if_neg h]
        exact (ih.cons z).trans (List.Perm.swap y z l)

/-- The sort of `sortResults` only permutes the match list. -/
theorem sortResults_perm (l : List SearchResult) (sortBy order : String) :
    (sortResults l sortBy order).Perm l := by
  suffices h : ∀ (l acc : List SearchResult),
      (l.foldl (fun a x => sortInsert (lessFn sortBy order) x a) acc).Perm
        (l ++ acc) by
    simpa using h l []
  intro l
  induction l with
  | nil => intro acc; simp
  | cons x l ih =>
      intro acc
      have h1 := ih (sortInsert (lessFn sortBy order) x acc)
      have h2 : (l ++ sortInsert (lessFn sortBy order) x acc).Perm
          (l ++ (x :: acc)) :=
        List.Perm.append_left l (sortInsert_perm _ x acc)
      simpa using (h1.trans h2).trans List.perm_middle

/-- Every element of a page comes from the paginated list. -/
theorem mem_of_mem_paginate {x : SearchResult} {l : List SearchResult}
    {page size : ℤ} (h : x ∈ paginate l page size) : x ∈ l := by
  simp only [paginate] at h
  by_cases hc : (l.length : ℤ) ≤
      ((if page < 1 then 1 else page) - 1) * (if size < 1 then 10 else size)
  · rw [if_pos hc] at h
    simp at h
  · rw [if_neg hc] at h
    exact List.drop_subset _ _ (List.take_subset _ _ h)

/-- A resource with zero relevance under a non-empty query never enters the
match list. -/
theorem searchMatchList_excludes {q : String} {f : SearchFilters}
    {all : List Resource} {r : Resource} (hq : q ≠ "")
    (hrel : calculateRelevance r q = 0) :
    ∀ sr ∈ searchMatchList q f all, sr.Resource ≠ r := by
  intro sr hsr heq
  simp only [searchMatchList, List.mem_filterMap] at hsr
  obtain ⟨r0, _, he⟩ := hsr
  by_cases h1 : q ≠ "" ∧ calculateRelevance r0 q = 0
  · simp [h1] at he
  · rw [if_neg h1] at he
    by_cases h2 : matchesFilters r0 f = true
    · rw [if_neg (fun hc => hc h2)] at he
      have hres : sr.Resource = r0 := by
        cases he
        rfl
      have hr0 : r0 = r := by rw [← hres, heq]
      exact h1 ⟨hq, by rw [hr0]; exact hrel⟩
    · rw [if_pos h2] at he
      exact Option.noConfusion he

/-! Concrete resources, search results and filters used by witnesses and
counterexamples. -/

def demoResA : Resource :=
  { ID := "idA", Filename := "fa", Title := "a", Description := "",
    Subject := "sa", Tags := [], Rtype := "", UploadedBy := "",
    AvailableOn := [], TotalRatings := 0, AverageRating := 0, RatingSum := 0,
    DownloadCount := 0, CreatedAt := 0, UpdatedAt := 0 }

def demoResB : Resource :=
  { demoResA with ID := "idB", Filename := "fb", Title := "b", Subject := "sb" }

def demoFilters : SearchFilters :=
  { Subject := "", Rtype := "", MinRating := 0, Tags := [], SortBy := "",
    SortOrder := "", Page := 0, PageSize := 0 }

def demoSR1 : SearchResult := ⟨demoResA, 0, 1⟩
def demoSR2 : SearchResult := ⟨demoResB, 0, 2⟩

end P2PLib

/-- C3: relevance is 1.0 on an empty query; on a non-empty query it is the
additive sum of the weighted case-insensitive substring hits (3.0 title, 2.0
filename, 1.5 subject, hence at most 6.5); and a resource whose relevance under
the processed non-empty query is 0 never appears in the search results. -/
theorem C3_relevance_weights_and_exclusion :
    (∀ r : Resource, calculateRelevance r "" = 1) ∧
    (∀ (r : Resource) (q : String), q ≠ "" →
      calculateRelevance r q =
        (if goContains (goToLower r.Title) q then (3 : ℚ) else 0) +
        (if goContains (goToLower r.Filename) q then (2 : ℚ) else 0) +
        (if goContains (goToLower r.Subject) q then (3/2 : ℚ) else 0) ∧
      calculateRelevance r q ≤ 13/2) ∧
    (∀ (query : String) (f : SearchFilters) (all : List Resource) (r : Resource),
      goToLower (goTrimSpace query) ≠ "" →
      calculateRelevance r (goToLower (goTrimSpace query)) = 0 →
      ∀ sr ∈ (Search query f all).Results, sr.Resource ≠ r) := by
  refine ⟨fun r => rfl, ?_, ?_⟩
  · intro r q hq
    constructor
    · simp only [calculateRelevance, if_neg hq]
      split_ifs <;> norm_num
    · simp only [calculateRelevance, if_neg hq]
      split_ifs <;> norm_num
  · intro query f all r hq hrel sr hsr heq
    have h1 : sr ∈ searchSorted (goToLower (goTrimSpace query)) f all :=
      mem_of_mem_paginate hsr
    have h2 : sr ∈ searchMatchList (goToLower (goTrimSpace query)) f all :=
      ((sortResults_perm _ _ _).mem_iff).mp h1
    exact searchMatchList_excludes hq hrel sr h2 heq

/-- Witness for C3 at concrete inputs discharging the hypotheses: the weighted
sum at a query hitting all three fields of `demoResA`, and the exclusion of
`demoResB` from a search for "a". -/
theorem C3_relevance_weights_and_exclusion_witness :
    (calculateRelevance demoResA "a" =
      (if goContains (goToLower demoResA.Title) "a" then (3 : ℚ) else 0) +
      (if goContains (goToLower demoResA.Filename) "a" then (2 : ℚ) else 0) +
      (if goContains (goToLower demoResA.Subject) "a" then (3/2 : ℚ) else 0) ∧
      calculateRelevance demoResA "a" ≤ 13/2) ∧
    (∀ sr ∈ (Search "b" demoFilters [demoResA, demoResB]).Results,
      sr.Resource ≠ demoResA) :=
  ⟨C3_relevance_weights_and_exclusion.2.1 demoResA "a" (by decide),
   C3_relevance_weights_and_exclusion.2.2 "b" demoFilters [demoResA, demoResB]
     demoResA (by decide) (by decide)⟩

/-- C10: `AddRating` with a rating outside [1.0, 5.0] is a complete silent
no-op (the whole record, TotalRatings, RatingSum, AverageRating and UpdatedAt
included, is returned unchanged and no error exists to signal); a rating inside
[1.0, 5.0] increments TotalRatings, adds to RatingSum, re-derives
AverageRating = RatingSum / TotalRatings and stamps UpdatedAt. -/
theorem C10_addRating_validation :
    (∀ (r : Resource) (rating : ℚ) (now : ℤ),
        rating < MinRating ∨ MaxRating < rating → AddRating r rating now = r) ∧
    (∀ (r : Resource) (rating : ℚ) (now : ℤ),
        MinRating ≤ rating → rating ≤ MaxRating →
        (AddRating r rating now).TotalRatings = r.TotalRatings + 1 ∧
        (AddRating r rating now).RatingSum = r.RatingSum + rating ∧
        (AddRating r rating now).AverageRating =
          (r.RatingSum + rating) / ((r.TotalRatings : ℚ) + 1) ∧
        (AddRating r rating now).UpdatedAt = now) := by
  constructor
  · intro r rating now h
    rcases h with h | h
    · simp [AddRating, IsValidRating, not_le.mpr h]
    · simp [AddRating, IsValidRating, not_le.mpr h]
  · intro r rating now h1 h2
    simp [AddRating, IsValidRating, h1, h2]

/-- Witness for C10: a 0.5 rating is silently dropped, a 4.0 rating is
accumulated, at a concrete resource. -/
theorem C10_addRating_validation_witness :
    AddRating demoResA (1/2) 99 = demoResA ∧
    ((AddRating demoResA 4 99).TotalRatings = demoResA.TotalRatings + 1 ∧
      (AddRating demoResA 4 99).RatingSum = demoResA.RatingSum + 4 ∧
      (AddRating demoResA 4 99).AverageRating =
        (demoResA.RatingSum + 4) / ((demoResA.TotalRatings : ℚ) + 1) ∧
      (AddRating demoResA 4 99).UpdatedAt = 99) :=
  ⟨C10_addRating_validation.1 demoResA (1/2) 99 (Or.inl (by norm_num [MinRating])),
   C10_addRating_validation.2 demoResA 4 99 (by norm_num [MinRating])
     (by norm_num [MaxRating])⟩

namespace P2PLib

/-- Modelled from the wording of the pagination claim, for comparison with the
code: `page` clamped to minimum 1, `pageSize` clamped to minimum 1 with the
default 10 used only for the unset value 0, then the window
[offset, min(offset+pageSize, len)). -/
def paginateClaimed (results : List SearchResult) (page size : ℤ) :
    List SearchResult :=
  let page := if page < 1 then 1 else page
  let size := if size = 0 then 10 else if size < 1 then 1 else size
  let offset := (page - 1) * size
  if (results.length : ℤ) ≤ offset then []
  else (results.drop offset.toNat).take size.toNat

end P2PLib

/-- C4 counterexample: the code does not clamp a supplied pageSize to a minimum
of 1 — any pageSize below 1 (here −1) is replaced by the default 10, so on a
two-element list the code returns both elements where the claimed clamping
would return exactly one. -/
theorem C4_counterexample_pageSize_clamp :
    paginate [demoSR1, demoSR2] 1 (-1) = [demoSR1, demoSR2] ∧
    paginateClaimed [demoSR1, demoSR2] 1 (-1) = [demoSR1] ∧
    paginate [demoSR1, demoSR2] 1 (-1) ≠
      paginateClaimed [demoSR1, demoSR2] 1 (-1) := by
  refine ⟨rfl, rfl, ?_⟩
  decide

/-- C4 (amended): pagination clamps page to minimum 1 and replaces any
pageSize below 1 (the unset 0 included) by the default 10; with the effective
page ≥ 1 and pageSize ≥ 1 it computes offset = (page−1)·pageSize, returns an
empty page (never an error) when offset ≥ totalMatches and otherwise exactly
the window [offset, min(offset+pageSize, totalMatches)); and the reported
TotalCount equals the number of matches after filtering, before pagination. -/
theorem C4_pagination_window_and_totalCount :
    (∀ (l : List SearchResult) (page size : ℤ), page < 1 →
        paginate l page size = paginate l 1 size) ∧
    (∀ (l : List SearchResult) (page size : ℤ), size < 1 →
        paginate l page size = paginate l page 10) ∧
    (∀ (l : List SearchResult) (page size : ℤ), 1 ≤ page → 1 ≤ size →
        ((l.length : ℤ) ≤ (page - 1) * size → paginate l page size = []) ∧
        ((page - 1) * size < (l.length : ℤ) →
          paginate l page size =
            (l.drop ((page - 1) * size).toNat).take size.toNat)) ∧
    (∀ (query : String) (f : SearchFilters) (all : List Resource),
      (Search query f all).TotalCount =
        ((searchMatchList (goToLower (goTrimSpace query)) f all).length : ℤ)) := by
  refine ⟨?_, ?_, ?_, ?_⟩
  · intro l page size hp
    simp [paginate, hp]
  · intro l page size hs
    simp [paginate, hs]
  · intro l page size hp hs
    have hp1 : ¬ page < 1 := not_lt.mpr hp
    have hs1 : ¬ size < 1 := not_lt.mpr hs
    constructor
    · intro hoff
      simp only [paginate, if_neg hp1, if_neg hs1, if_pos hoff]
    · intro hoff
      simp only [paginate, if_neg hp1, if_neg hs1, if_neg (not_le.mpr hoff)]
  · intro query f all
    show ((searchSorted (goToLower (goTrimSpace query)) f all).length : ℤ) = _
    exact_mod_cast congrArg Nat.cast
      ((sortResults_perm (searchMatchList (goToLower (goTrimSpace query)) f all)
        f.SortBy f.SortOrder).length_eq)

/-- Witness for C4 at concrete inputs discharging the hypotheses: page 0 is
clamped to 1, pageSize 0 falls back to 10, page 2 of size 1 over two elements
is the second element, and page 3 is empty. -/
theorem C4_pagination_window_and_totalCount_witness :
    paginate [demoSR1, demoSR2] 0 5 = paginate [demoSR1, demoSR2] 1 5 ∧
    paginate [demoSR1, demoSR2] 1 0 = paginate [demoSR1, demoSR2] 1 10 ∧
    paginate [demoSR1, demoSR2] 3 1 = [] ∧
    paginate [demoSR1, demoSR2] 2 1 =
      ([demoSR1, demoSR2].drop ((2 - 1) * 1 : ℤ).toNat).take (1 : ℤ).toNat :=
  ⟨C4_pagination_window_and_totalCount.1 [demoSR1, demoSR2] 0 5 (by norm_num),
   C4_pagination_window_and_totalCount.2.1 [demoSR1, demoSR2] 1 0 (by norm_num),
   (C4_pagination_window_and_totalCount.2.2.1 [demoSR1, demoSR2] 3 1
     (by norm_num) (by norm_num)).1 (by norm_num),
   (C4_pagination_window_and_totalCount.2.2.1 [demoSR1, demoSR2] 2 1
     (by norm_num) (by norm_num)).2 (by norm_num)⟩

namespace P2PLib

/-- With an effective pageSize ≥ 1, page i+1 is exactly the i-th size-window of
the list (empty once the offset passes the end). -/
theorem paginate_eq_window (l : List SearchResult) (s : ℤ) (hs : 1 ≤ s)
    (i : ℕ) :
    paginate l ((i : ℤ) + 1) s = (l.drop (i * s.toNat)).take s.toNat := by
  have hp : ¬ ((i : ℤ) + 1 < 1) := by omega
  have hsn : ¬ (s < 1) := not_lt.mpr hs
  have hsval : ((s.toNat : ℤ)) = s := Int.toNat_of_nonneg (by omega)
  have hoff : ((i : ℤ) + 1 - 1) * s = ((i * s.toNat : ℕ) : ℤ) := by
    push_cast [hsval]
    ring
  simp only [paginate, if_neg hp, if_neg hsn, hoff]
  by_cases hc : (l.length : ℤ) ≤ ((i * s.toNat : ℕ) : ℤ)
  · rw [if_pos hc]
    have hlen : l.length ≤ i * s.toNat := by exact_mod_cast hc
    rw [List.drop_eq_nil_of_le hlen]
    simp
  · rw [if_neg hc, Int.toNat_natCast]

/-- Concatenating the first N size-windows of a list is its (N·s)-prefix. -/
theorem window_join (l : List SearchResult) (s : ℕ) :
    ∀ N : ℕ,
      ((List.range N).map fun i => (l.drop (i * s)).take s).flatten =
        l.take (N * s) := by
  intro N
  induction N with
  | zero => simp
  | succ N ih =>
      rw [List.range_succ, List.map_append, List.flatten_append, ih]
      simp only [List.map_cons, List.map_nil, List.flatten_cons,
        List.flatten_nil, List.append_nil]
      rw [Nat.succ_mul, List.take_add]

end P2PLib

/-- C9: pagination is exhaustive and disjoint — for every result list and fixed
pageSize ≥ 1, concatenating the pages for page = 1, 2, ..., N in order (N any
number of pages covering the whole list; later pages are empty) reproduces
exactly the full list, with no element duplicated and none omitted. -/
theorem C9_pagination_exhaustive_disjoint :
    ∀ (l : List SearchResult) (size : ℤ), 1 ≤ size →
      ∀ N : ℕ, l.length ≤ N * size.toNat →
        ((List.range N).map fun i : ℕ => paginate l ((i : ℤ) + 1) size).flatten
          = l := by
  intro l size hs N hN
  have hmap : ((List.range N).map fun i : ℕ => paginate l ((i : ℤ) + 1) size) =
      (List.range N).map fun i => (l.drop (i * size.toNat)).take size.toNat :=
    List.map_congr_left fun i _ => paginate_eq_window l size hs i
  rw [hmap, window_join l size.toNat N, List.take_of_length_le hN]

/-- Witness for C9: two pages of size 1 over a two-element list concatenate to
the list itself. -/
theorem C9_pagination_exhaustive_disjoint_witness :
    ((List.range 2).map fun i : ℕ =>
      paginate [demoSR1, demoSR2] ((i : ℤ) + 1) 1).flatten =
      [demoSR1, demoSR2] :=
  C9_pagination_exhaustive_disjoint [demoSR1, demoSR2] 1 (by norm_num) 2
    (by norm_num)

/-- C5 counterexample: the backing map's enumeration order is unspecified, and
the sort has no secondary key, so two runs of the same search over the same
unchanged two-resource collection (its two possible enumerations, which are
permutations of one another) return the tied results in different orders: the
claim that repeated runs always yield identical ordered results fails. -/
theorem C5_counterexample_tie_order :
    demoResA ≠ demoResB ∧
    [demoResA, demoResB].Perm [demoResB, demoResA] ∧
    Search "" demoFilters [demoResA, demoResB] ≠
      Search "" demoFilters [demoResB, demoResA] := by
  refine ⟨by decide, List.Perm.swap demoResB demoResA [], ?_⟩
  decide

/-- C5 (amended): Search is a deterministic function of the enumeration order
the store hands back — over two enumerations of the same unchanged collection
(permutations of each other) it reports the same TotalCount and match lists
that are permutations of each other — but the ordered results are only
guaranteed identical when the enumeration order coincides; for tied sort keys
different enumerations may order the ties differently (see the
counterexample). -/
theorem C5_search_deterministic_up_to_enumeration :
    ∀ (query : String) (f : SearchFilters) (l1 l2 : List Resource),
      l1.Perm l2 →
      (Search query f l1).TotalCount = (Search query f l2).TotalCount ∧
      (searchSorted (goToLower (goTrimSpace query)) f l1).Perm
        (searchSorted (goToLower (goTrimSpace query)) f l2) := by
  intro query f l1 l2 hp
  have hm : (searchMatchList (goToLower (goTrimSpace query)) f l1).Perm
      (searchMatchList (goToLower (goTrimSpace query)) f l2) :=
    hp.filterMap _
  have hsorted : (searchSorted (goToLower (goTrimSpace query)) f l1).Perm
      (searchSorted (goToLower (goTrimSpace query)) f l2) :=
    ((sortResults_perm _ _ _).trans hm).trans (sortResults_perm _ _ _).symm
  exact ⟨by exact_mod_cast congrArg Nat.cast hsorted.length_eq, hsorted⟩

/-- Witness for C5 discharging the permutation hypothesis at the concrete
two-resource collection. -/
theorem C5_search_deterministic_up_to_enumeration_witness :
    (Search "" demoFilters [demoResA, demoResB]).TotalCount =
      (Search "" demoFilters [demoResB, demoResA]).TotalCount ∧
    (searchSorted (goToLower (goTrimSpace "")) demoFilters
      [demoResA, demoResB]).Perm
      (searchSorted (goToLower (goTrimSpace "")) demoFilters
        [demoResB, demoResA]) :=
  C5_search_deterministic_up_to_enumeration "" demoFilters
    [demoResA, demoResB] [demoResB, demoResA]
    (List.Perm.swap demoResB demoResA [])
